import Mathlib

/-!
Verification development for the context-composition layer of a design-system
component library, together with two UI components (Button, FilterCreator)
whose rendering and event-handling logic is embedded from the source.

The context assembler (createPolarisContext), the Intl translation service,
the Link capability and the sticky/scroll-lock manager classes are exercised
in the repository only through their test file; their implementations are not
part of the available sources.  Those parts are modelled from the
specification (shape-based source classification, default injection,
namespace scoping of callbacks) and each such definition is marked
"Modelled from the spec".  Button and FilterCreator are embedded directly
from their TypeScript sources, including JavaScript truthiness of strings
(the empty string is falsy).
-/

namespace Polaris

/-- Modelled from the spec: a nested translation dictionary mapping string
keys to either a string template (leaf) or a nested namespace.  The nested
mapping is encoded first-child/next-sibling: `cons key value rest` is one
entry of a namespace whose remaining entries are `rest`; `nil` is the empty
namespace; `leaf s` is a string template. -/
inductive TranslationDictionary where
  | leaf : String → TranslationDictionary
  | nil : TranslationDictionary
  | cons : String → TranslationDictionary → TranslationDictionary → TranslationDictionary
deriving DecidableEq

/-- Modelled from the spec: translation-time lookup of a dot-separated key
path inside one dictionary, descending nested namespaces; returns the string
template found at the full path, or none when any step of the path is
absent or the path does not end at a string. -/
def lookupDict : TranslationDictionary → List String → Option String
  | .leaf s, [] => some s
  | .leaf _, _ :: _ => none
  | .nil, _ => none
  | .cons _ _ _, [] => none
  | .cons key v rest, k :: path =>
    if key = k then lookupDict v path else lookupDict rest (k :: path)

/-- Modelled from the spec: the built-in default translation dictionary
(the locale file is not part of the available sources); representative
entries used by the components. -/
def defaultTranslation : TranslationDictionary :=
  .cons "Polaris"
    (.cons "Common"
      (.cons "undo" (.leaf "Undo") (.cons "cancel" (.leaf "Cancel") .nil))
      (.cons "Button"
        (.cons "spinnerAccessibilityLabel" (.leaf "Loading") .nil)
        (.cons "ResourceList"
          (.cons "FilterCreator"
            (.cons "filterButtonLabel" (.leaf "Filter")
              (.cons "addFilterButtonLabel" (.leaf "Add filter") .nil))
            .nil)
          .nil)))
    .nil

/-- Modelled from the spec: the Intl translation service holds the optional
override dictionary directly (no eager flattening). -/
structure Intl where
  translation : Option TranslationDictionary
deriving DecidableEq

/-- Modelled from the spec: construction of the Intl service from an
optional override dictionary. -/
def Intl.new (t : Option TranslationDictionary) : Intl := ⟨t⟩

/-- Modelled from the spec: lookup falls back to the built-in default
dictionary when the full key path is absent from the override, at leaf
granularity. -/
def Intl.translate (i : Intl) (path : List String) : Option String :=
  match i.translation with
  | some d =>
    match lookupDict d path with
    | some s => some s
    | none => lookupDict defaultTranslation path
  | none => lookupDict defaultTranslation path

/-- An opaque custom link renderer, identified by a tag. -/
abbrev LinkRenderer := Nat

/-- Modelled from the spec: the link capability wraps an optional custom
renderer; none means the built-in default anchor renderer. -/
structure Link where
  linkComponent : Option LinkRenderer
deriving DecidableEq

/-- Modelled from the spec: construction of the link capability. -/
def Link.new (c : Option LinkRenderer) : Link := ⟨c⟩

/-- Modelled from the spec: a theme-change callback; the canonical shared
no-op is one distinguished value, every other callback carries a tag. -/
inductive Callback where
  | noop : Callback
  | custom : Nat → Callback
deriving DecidableEq

/-- Modelled from the spec: a sticky-position manager instance, identified
by a reference into an external heap of registries (instances are adopted
by reference, so the value is the reference). -/
structure StickyManager where
  ref : Nat
deriving DecidableEq

/-- Modelled from the spec: a scroll-lock manager instance, identified by a
reference. -/
structure ScrollLockManager where
  ref : Nat
deriving DecidableEq

/-- A heap of manager registries, indexed by reference; models the mutable
internal state that a manager instance owns. -/
def Heap := Nat → List Nat

/-- Registering an item mutates the registry of exactly the referenced
manager instance. -/
def Heap.register (h : Heap) (r : Nat) (x : Nat) : Heap :=
  fun i => if i = r then x :: h i else h i

/-- A logo value (the theme bundle stores value-or-null, modelled as
Option). -/
abbrev LogoValue := String

/-- Modelled from the spec: a loosely-typed configuration input that may
carry any subset of the six known settings.  An outer Option on each field
records key presence (a key may be present with a null value, as with
logo). -/
structure ConfigurationInput where
  i18n : Option TranslationDictionary := none
  linkComponent : Option LinkRenderer := none
  stickyManager : Option StickyManager := none
  logo : Option (Option LogoValue) := none
  subscribe : Option Callback := none
  unsubscribe : Option Callback := none
deriving DecidableEq

/-- Modelled from the spec: an input is app-shaped when it possesses any of
the i18n / linkComponent / stickyManager keys. -/
def ConfigurationInput.isAppShaped (c : ConfigurationInput) : Bool :=
  c.i18n.isSome || c.linkComponent.isSome || c.stickyManager.isSome

/-- Modelled from the spec: an input is theme-shaped when it possesses any
of the logo / subscribe / unsubscribe keys. -/
def ConfigurationInput.isThemeShaped (c : ConfigurationInput) : Bool :=
  c.logo.isSome || c.subscribe.isSome || c.unsubscribe.isSome

/-- Modelled from the spec: probe one optional input for a shape. -/
def shapeMatch (p : ConfigurationInput → Bool) :
    Option ConfigurationInput → Option ConfigurationInput
  | some c => if p c then some c else none
  | none => none

/-- Modelled from the spec: the source classifier picks, independently of
argument position, the input whose shape matches a field namespace. -/
def pickSource (p : ConfigurationInput → Bool)
    (a b : Option ConfigurationInput) : Option ConfigurationInput :=
  match shapeMatch p a with
  | some c => some c
  | none => shapeMatch p b

/-- Modelled from the spec: the general service bundle ("polaris"). -/
structure ServiceBundle where
  intl : Intl
  link : Link
  stickyManager : StickyManager
  scrollLockManager : ScrollLockManager
  subscribe : Callback
  unsubscribe : Callback
  appBridge : Option Nat
deriving DecidableEq

/-- Modelled from the spec: the theme bundle ("polarisTheme"). -/
structure ThemeBundle where
  logo : Option LogoValue
  subscribe : Callback
  unsubscribe : Callback
deriving DecidableEq

/-- Modelled from the spec: the assembled context, two fixed namespaces. -/
structure PolarisContext where
  polaris : ServiceBundle
  polarisTheme : ThemeBundle
deriving DecidableEq

/-- Modelled from the spec: createPolarisContext classifies the two optional
inputs by shape, builds intl and link from the classified app source, adopts
a caller-supplied sticky manager or constructs a fresh default, always
constructs a fresh scroll-lock manager, copies logo and the theme callbacks
from the classified theme source, and sets the general bundle's
subscribe/unsubscribe to the canonical no-op unconditionally with appBridge
undefined.  The parameter fresh is the allocator state: fresh references
fresh and fresh + 1 name the newly constructed default manager instances. -/
def createPolarisContext (a b : Option ConfigurationInput) (fresh : Nat) :
    PolarisContext :=
  let app := pickSource ConfigurationInput.isAppShaped a b
  let theme := pickSource ConfigurationInput.isThemeShaped a b
  { polaris :=
    { intl := Intl.new (app.bind ConfigurationInput.i18n)
      link := Link.new (app.bind ConfigurationInput.linkComponent)
      stickyManager := (app.bind ConfigurationInput.stickyManager).getD ⟨fresh⟩
      scrollLockManager := ⟨fresh + 1⟩
      subscribe := Callback.noop
      unsubscribe := Callback.noop
      appBridge := none }
    polarisTheme :=
    { logo := (theme.bind ConfigurationInput.logo).getD none
      subscribe := (theme.bind ConfigurationInput.subscribe).getD Callback.noop
      unsubscribe := (theme.bind ConfigurationInput.unsubscribe).getD Callback.noop } }

/-- JavaScript truthiness of an optional string: undefined and the empty
string are falsy. -/
def truthyStr : Option String → Bool
  | some s => !(s == "")
  | none => false

/-- JavaScript `x || ''` on an optional string. -/
def jsOrEmpty : Option String → String
  | some v => if v == "" then "" else v
  | none => ""

/-- Button props (the fields of the source's Props that feed the rendered
element's attributes in the return expression of Button). -/
structure ButtonProps where
  id : Option String := none
  url : Option String := none
  external : Option Bool := none
  disabled : Option Bool := none
  loading : Option Bool := none
  submit : Option Bool := none
deriving DecidableEq

/-- The element Button returns: an UnstyledLink when the url prop is truthy,
otherwise a native button, with the attributes the source sets on each. -/
inductive ButtonElement where
  | unstyledLink (id : Option String) (url : String) (external : Option Bool)
      (disabled : Bool)
  | nativeButton (id : Option String) (typ : String) (disabled : Bool)
      (role : Option String) (ariaBusy : Option Bool)
deriving DecidableEq

/-- The native-button branch of Button's return expression. -/
def nativeButtonOf (p : ButtonProps) (typ : String) (isDisabled : Bool) :
    ButtonElement :=
  ButtonElement.nativeButton p.id typ isDisabled
    (if p.loading.getD false then some "alert" else none)
    (if p.loading.getD false then some true else none)

/-- Embedding of the Button function body: isDisabled is
`disabled || loading`, type is `submit ? 'submit' : 'button'`, and the
returned element is chosen by `url ? <UnstyledLink ...> : <button ...>`
(JavaScript truthiness: an empty-string url selects the native button). -/
def renderButton (p : ButtonProps) : ButtonElement :=
  let isDisabled := p.disabled.getD false || p.loading.getD false
  let typ := if p.submit.getD false then "submit" else "button"
  match p.url with
  | some u =>
    if u == "" then nativeButtonOf p typ isDisabled
    else ButtonElement.unstyledLink p.id u p.external isDisabled
  | none => nativeButtonOf p typ isDisabled

/-- Whether the rendered element is an UnstyledLink. -/
def ButtonElement.isLink : ButtonElement → Bool
  | .unstyledLink _ _ _ _ => true
  | .nativeButton _ _ _ _ _ => false

/-- The disabled attribute of the rendered element. -/
def ButtonElement.disabledAttr : ButtonElement → Bool
  | .unstyledLink _ _ _ d => d
  | .nativeButton _ _ d _ _ => d

/-- A filter definition as used by FilterCreator (key plus display label). -/
structure Filter where
  key : String
  label : String
deriving DecidableEq

/-- The value handed to onAddFilter. -/
structure AppliedFilter where
  key : String
  value : String
deriving DecidableEq

/-- The FilterCreator component state. -/
structure FilterCreatorState where
  popoverActive : Bool
  selectedFilter : Option Filter := none
  selectedFilterValue : Option String := none
deriving DecidableEq

/-- Embedding of the canAddFilter getter:
`Boolean(this.state.selectedFilter && this.state.selectedFilterValue)`
(an empty-string value is falsy). -/
def canAddFilter (s : FilterCreatorState) : Bool :=
  s.selectedFilter.isSome && truthyStr s.selectedFilterValue

/-- Embedding of handleAddFilter: computes
`selectedFilterKey = selectedFilter && selectedFilter.key`, returns early
when `!onAddFilter || !this.canAddFilter || !selectedFilterKey`, otherwise
calls onAddFilter with the key and `selectedFilterValue || ''` and resets
the state.  The first component is the emitted call (none when the guard
fails), the second the state after the handler. -/
def handleAddFilter (hasOnAddFilter : Bool) (s : FilterCreatorState) :
    Option AppliedFilter × FilterCreatorState :=
  let selectedFilterKey := s.selectedFilter.map Filter.key
  if !hasOnAddFilter || !canAddFilter s || !truthyStr selectedFilterKey then
    (none, s)
  else
    (some
      { key := selectedFilterKey.getD ""
        value := jsOrEmpty s.selectedFilterValue },
     { popoverActive := false
       selectedFilter := none
       selectedFilterValue := none })

/-- The concrete override dictionary from the test scenario:
Polaris.Common.undo = "Custom Undo". -/
def cOverride : TranslationDictionary :=
  .cons "Polaris"
    (.cons "Common" (.cons "undo" (.leaf "Custom Undo") .nil) .nil)
    .nil

/-- A concrete app-shaped configuration input. -/
def cA : ConfigurationInput :=
  { i18n := some cOverride
    linkComponent := some 7
    stickyManager := some ⟨42⟩ }

/-- A concrete theme-shaped configuration input. -/
def cB : ConfigurationInput :=
  { logo := some none
    subscribe := some (Callback.custom 1)
    unsubscribe := some (Callback.custom 2) }

/-- Concrete Button props: loading with a nonempty url. -/
def cBtn : ButtonProps :=
  { url := some "https://shopify.com"
    disabled := some false
    loading := some true }

/-- Concrete Button props with an empty-string url supplied. -/
def cBtnEmptyUrl : ButtonProps :=
  { url := some "", submit := some true }

/-- Concrete FilterCreator state: a filter with key "k" selected and the
value "v" chosen. -/
def cState : FilterCreatorState :=
  { popoverActive := true
    selectedFilter := some ⟨"k", "Key filter"⟩
    selectedFilterValue := some "v" }

/-- Concrete FilterCreator state whose selected filter has an empty key. -/
def cStateEmptyKey : FilterCreatorState :=
  { popoverActive := true
    selectedFilter := some ⟨"", "Anonymous filter"⟩
    selectedFilterValue := some "v" }

/-- The app-shaped configuration input built from an override dictionary, a
custom link renderer and a sticky manager instance. -/
def appInputOf (D : TranslationDictionary) (L : LinkRenderer)
    (S : StickyManager) : ConfigurationInput :=
  { i18n := some D, linkComponent := some L, stickyManager := some S }

/-- The theme-shaped configuration input built from a logo value and two
callbacks. -/
def themeInputOf (x : LogoValue) (f g : Callback) : ConfigurationInput :=
  { logo := some (some x), subscribe := some f, unsubscribe := some g }

/-- A second, separately constructed copy of the override dictionary, equal
in structure to cOverride. -/
def cOverrideCopy : TranslationDictionary :=
  .cons "Polaris"
    (.cons "Common" (.cons "undo" (.leaf "Custom Undo") .nil) .nil)
    .nil

/-- Helper: when the full key path is present in the override dictionary,
translation returns the override's value. -/
theorem translate_of_lookup_some (d : TranslationDictionary)
    (path : List String) (s : String) (h : lookupDict d path = some s) :
    (Intl.new (some d)).translate path = some s := by
  simp [Intl.translate, Intl.new, h]

/-- Helper: when the full key path is absent from the override dictionary,
translation falls back to the built-in default dictionary. -/
theorem translate_of_lookup_none (d : TranslationDictionary)
    (path : List String) (h : lookupDict d path = none) :
    (Intl.new (some d)).translate path = lookupDict defaultTranslation path := by
  simp [Intl.translate, Intl.new, h]

/-- Claim C1: for every valid app-shaped configuration input A and
theme-shaped configuration input B, createPolarisContext A B equals
createPolarisContext B A: the merged output is identical whichever argument
position each input occupies. -/
theorem claim_C1_order_independence (A B : ConfigurationInput) (fresh : Nat)
    (hA1 : A.isAppShaped = true) (hA2 : A.isThemeShaped = false)
    (hB1 : B.isThemeShaped = true) (hB2 : B.isAppShaped = false) :
    createPolarisContext (some A) (some B) fresh
      = createPolarisContext (some B) (some A) fresh := by
  simp [createPolarisContext, pickSource, shapeMatch, hA1, hA2, hB1, hB2]

/-- Witness for claim C1 at the test scenario's concrete inputs. -/
theorem claim_C1_witness :
    createPolarisContext (some cA) (some cB) 0
      = createPolarisContext (some cB) (some cA) 0 :=
  claim_C1_order_independence cA cB 0 rfl rfl rfl rfl

/-- Claim C2: createPolarisContext with both inputs absent returns the
default-complete context: intl behaving as the built-in default dictionary,
the default link capability, freshly constructed default sticky and
scroll-lock managers, no-op subscribe/unsubscribe, undefined appBridge, and
polarisTheme = (logo null, no-op subscribe, no-op unsubscribe). -/
theorem claim_C2_default_completeness (fresh : Nat) :
    createPolarisContext none none fresh =
      { polaris :=
        { intl := Intl.new none
          link := Link.new none
          stickyManager := ⟨fresh⟩
          scrollLockManager := ⟨fresh + 1⟩
          subscribe := Callback.noop
          unsubscribe := Callback.noop
          appBridge := none }
        polarisTheme :=
        { logo := none
          subscribe := Callback.noop
          unsubscribe := Callback.noop } }
    ∧ ∀ path, (Intl.new none).translate path = lookupDict defaultTranslation path :=
  ⟨rfl, fun _ => rfl⟩

/-- Claim C3: for every pair of configuration inputs the polaris bundle's
subscribe and unsubscribe are the canonical no-op, and theme-supplied
callbacks appear (only) in the polarisTheme bundle. -/
theorem claim_C3_namespace_isolation (a b : Option ConfigurationInput)
    (fresh : Nat) :
    ((createPolarisContext a b fresh).polaris.subscribe = Callback.noop
      ∧ (createPolarisContext a b fresh).polaris.unsubscribe = Callback.noop)
    ∧ (∀ t, pickSource ConfigurationInput.isThemeShaped a b = some t →
        (createPolarisContext a b fresh).polarisTheme.subscribe
            = t.subscribe.getD Callback.noop
          ∧ (createPolarisContext a b fresh).polarisTheme.unsubscribe
            = t.unsubscribe.getD Callback.noop) := by
  refine ⟨⟨rfl, rfl⟩, ?_⟩
  intro t ht
  constructor <;> simp [createPolarisContext, ht]

/-- Witness for claim C3: a theme input supplying real callbacks yields a
context whose polaris callbacks are the no-op while the supplied callbacks
sit in polarisTheme. -/
theorem claim_C3_witness :
    ((createPolarisContext (some cA) (some cB) 0).polaris.subscribe = Callback.noop
      ∧ (createPolarisContext (some cA) (some cB) 0).polaris.unsubscribe = Callback.noop)
    ∧ (createPolarisContext (some cA) (some cB) 0).polarisTheme.subscribe
        = Callback.custom 1 := by
  have h := claim_C3_namespace_isolation (some cA) (some cB) 0
  exact ⟨h.1, ((h.2 cB rfl).1.trans rfl)⟩

/-- Claim C4: override fidelity: with the app input supplying dictionary D,
link renderer L and sticky manager S and the theme input supplying logo x
and callbacks f, g, the result's intl reflects D merged over the defaults,
link wraps L, stickyManager is exactly S, and polarisTheme is
(logo x, subscribe f, unsubscribe g). -/
theorem claim_C4_override_fidelity (D : TranslationDictionary)
    (L : LinkRenderer) (S : StickyManager) (x : LogoValue) (f g : Callback)
    (fresh : Nat) :
    (createPolarisContext (some (appInputOf D L S)) (some (themeInputOf x f g))
        fresh).polaris.intl = Intl.new (some D)
    ∧ (∀ path s, lookupDict D path = some s →
        (createPolarisContext (some (appInputOf D L S))
            (some (themeInputOf x f g)) fresh).polaris.intl.translate path
          = some s)
    ∧ (∀ path, lookupDict D path = none →
        (createPolarisContext (some (appInputOf D L S))
            (some (themeInputOf x f g)) fresh).polaris.intl.translate path
          = lookupDict defaultTranslation path)
    ∧ (createPolarisContext (some (appInputOf D L S)) (some (themeInputOf x f g))
        fresh).polaris.link = Link.new (some L)
    ∧ (createPolarisContext (some (appInputOf D L S)) (some (themeInputOf x f g))
        fresh).polaris.stickyManager = S
    ∧ (createPolarisContext (some (appInputOf D L S)) (some (themeInputOf x f g))
        fresh).polarisTheme
      = { logo := some x, subscribe := f, unsubscribe := g } := by
  refine ⟨rfl, ?_, ?_, rfl, rfl, rfl⟩
  · intro path s h
    exact translate_of_lookup_some D path s h
  · intro path h
    exact translate_of_lookup_none D path h

/-- Witness for claim C4 at the test scenario's concrete values. -/
theorem claim_C4_witness :
    (createPolarisContext (some (appInputOf cOverride 7 ⟨42⟩))
        (some (themeInputOf "logo.png" (Callback.custom 1) (Callback.custom 2)))
        0).polaris.intl.translate ["Polaris", "Common", "undo"]
      = some "Custom Undo"
    ∧ (createPolarisContext (some (appInputOf cOverride 7 ⟨42⟩))
        (some (themeInputOf "logo.png" (Callback.custom 1) (Callback.custom 2)))
        0).polaris.stickyManager = ⟨42⟩ := by
  have h := claim_C4_override_fidelity cOverride 7 ⟨42⟩ "logo.png"
    (Callback.custom 1) (Callback.custom 2) 0
  exact ⟨h.2.1 ["Polaris", "Common", "undo"] "Custom Undo" (by decide),
    h.2.2.2.2.1⟩

/-- Claim C5: when the classified app input supplies an existing sticky
manager instance, the bundle's stickyManager is that exact instance adopted
by reference: registering through either handle mutates the one shared
registry. -/
theorem claim_C5_instance_adoption (a b : Option ConfigurationInput)
    (app : ConfigurationInput) (S : StickyManager) (fresh : Nat)
    (hApp : pickSource ConfigurationInput.isAppShaped a b = some app)
    (hS : app.stickyManager = some S) :
    (createPolarisContext a b fresh).polaris.stickyManager = S
    ∧ ∀ (h : Heap) (x : Nat),
        Heap.register h S.ref x
            (createPolarisContext a b fresh).polaris.stickyManager.ref
          = x :: h S.ref
        ∧ Heap.register h
            (createPolarisContext a b fresh).polaris.stickyManager.ref x S.ref
          = x :: h S.ref := by
  have hmain : (createPolarisContext a b fresh).polaris.stickyManager = S := by
    simp [createPolarisContext, hApp, hS]
  refine ⟨hmain, ?_⟩
  intro h x
  rw [hmain]
  constructor <;> simp [Heap.register]

/-- Witness for claim C5: the concrete app input carries the manager with
reference 42, which the bundle adopts. -/
theorem claim_C5_witness :
    (createPolarisContext (some cA) (some cB) 0).polaris.stickyManager = ⟨42⟩
    ∧ Heap.register (fun _ => []) 42 9
        (createPolarisContext (some cA) (some cB) 0).polaris.stickyManager.ref
      = [9] := by
  have h := claim_C5_instance_adoption (some cA) (some cB) cA ⟨42⟩ 0 rfl rfl
  exact ⟨h.1, (h.2 (fun _ => []) 9).1⟩

/-- Claim C6: the scroll-lock manager of the result is always the freshly
constructed default instance, identical across all configuration inputs:
no input path makes it a caller-supplied instance. -/
theorem claim_C6_scroll_lock_fresh (a b a2 b2 : Option ConfigurationInput)
    (fresh : Nat) :
    (createPolarisContext a b fresh).polaris.scrollLockManager = ⟨fresh + 1⟩
    ∧ (createPolarisContext a b fresh).polaris.scrollLockManager
      = (createPolarisContext a2 b2 fresh).polaris.scrollLockManager :=
  ⟨rfl, rfl⟩

/-- Claim C7: two intl services constructed from structurally-equal override
dictionaries are value-equal and observably equal on every lookup, and
context assembly from equal inputs yields equal results. -/
theorem claim_C7_dictionary_congruence (d1 d2 : Option TranslationDictionary)
    (h : d1 = d2) :
    Intl.new d1 = Intl.new d2
    ∧ (∀ path, (Intl.new d1).translate path = (Intl.new d2).translate path)
    ∧ ∀ (A : ConfigurationInput) (b : Option ConfigurationInput) (fresh : Nat),
        createPolarisContext (some { A with i18n := d1 }) b fresh
          = createPolarisContext (some { A with i18n := d2 }) b fresh := by
  subst h
  exact ⟨rfl, fun _ => rfl, fun _ _ _ => rfl⟩

/-- Witness for claim C7 at two separately constructed equal dictionaries. -/
theorem claim_C7_witness :
    Intl.new (some cOverride) = Intl.new (some cOverrideCopy)
    ∧ (Intl.new (some cOverride)).translate ["Polaris", "Common", "undo"]
      = (Intl.new (some cOverrideCopy)).translate ["Polaris", "Common", "undo"] := by
  have h := claim_C7_dictionary_congruence (some cOverride) (some cOverrideCopy)
    (by decide)
  exact ⟨h.1, h.2.1 ["Polaris", "Common", "undo"]⟩

/-- Claim C8: translation lookup returns the override's value when the full
key path is present in the override and otherwise falls back to the built-in
default dictionary, recursing through nested namespaces at leaf
granularity. -/
theorem claim_C8_leaf_fallback (d : TranslationDictionary)
    (path : List String) :
    (∀ s, lookupDict d path = some s →
      (Intl.new (some d)).translate path = some s)
    ∧ (lookupDict d path = none →
      (Intl.new (some d)).translate path = lookupDict defaultTranslation path) :=
  ⟨fun s h => translate_of_lookup_some d path s h,
   fun h => translate_of_lookup_none d path h⟩

/-- Witness for claim C8: the override provides Polaris.Common.undo, and the
leaf Polaris.Common.cancel missing from that provided namespace still
resolves from the defaults. -/
theorem claim_C8_witness :
    (Intl.new (some cOverride)).translate ["Polaris", "Common", "undo"]
      = some "Custom Undo"
    ∧ (Intl.new (some cOverride)).translate ["Polaris", "Common", "cancel"]
      = some "Cancel" :=
  ⟨(claim_C8_leaf_fallback cOverride ["Polaris", "Common", "undo"]).1
      "Custom Undo" (by decide),
   ((claim_C8_leaf_fallback cOverride ["Polaris", "Common", "cancel"]).2
      (by decide)).trans (by decide)⟩

/-- Counterexample to claim C9 as stated: the props supply a url (the empty
string), yet the rendered element is a native button, not a link. -/
theorem claim_C9_counterexample :
    cBtnEmptyUrl.url.isSome = true
    ∧ (renderButton cBtnEmptyUrl).isLink = false := by decide

/-- Claim C9 (amended): if loading is true the rendered element carries the
disabled attribute even when the disabled prop is false or absent; the
element is a link exactly when a nonempty url is supplied, a native button
otherwise; and the native button's type is submit exactly when the submit
prop is true. -/
theorem claim_C9_button_rendering (p : ButtonProps) :
    (p.loading = some true → (renderButton p).disabledAttr = true)
    ∧ ((renderButton p).isLink = true ↔ ∃ u, p.url = some u ∧ u ≠ "")
    ∧ (∀ i t d r ab, renderButton p = ButtonElement.nativeButton i t d r ab →
        (t = "submit" ↔ p.submit = some true)) := by
  obtain ⟨i0, u0, e0, d0, l0, s0⟩ := p
  refine ⟨?_, ?_, ?_⟩
  · intro h
    subst h
    cases u0 with
    | none => simp [renderButton, nativeButtonOf, ButtonElement.disabledAttr]
    | some u =>
      by_cases hu : u = ""
      · subst hu
        simp [renderButton, nativeButtonOf, ButtonElement.disabledAttr]
      · have hbu : (u == "") = false := by simpa using hu
        simp [renderButton, hbu, ButtonElement.disabledAttr]
  · cases u0 with
    | none => simp [renderButton, nativeButtonOf, ButtonElement.isLink]
    | some u =>
      by_cases hu : u = ""
      · subst hu
        simp [renderButton, nativeButtonOf, ButtonElement.isLink]
      · have hbu : (u == "") = false := by simpa using hu
        simp [renderButton, hbu, ButtonElement.isLink, hu]
  · intro i t d r ab hEq
    cases u0 with
    | none =>
      injection hEq with h1 h2 h3 h4 h5
      subst h2
      cases s0 with
      | none => simp
      | some bb => cases bb <;> simp
    | some u =>
      by_cases hu : u = ""
      · subst hu
        injection hEq with h1 h2 h3 h4 h5
        subst h2
        cases s0 with
        | none => simp
        | some bb => cases bb <;> simp
      · have hbu : (u == "") = false := by simpa using hu
        simp [renderButton, hbu] at hEq

/-- Witness for claim C9: loading props with a nonempty url render a
disabled link. -/
theorem claim_C9_witness :
    (renderButton cBtn).disabledAttr = true
    ∧ (renderButton cBtn).isLink = true := by
  have h := claim_C9_button_rendering cBtn
  exact ⟨h.1 rfl, h.2.1.mpr ⟨"https://shopify.com", rfl, by decide⟩⟩

/-- Counterexample to claim C10 as stated: the callback is provided, a
filter is selected and the selected value "v" is non-empty, yet
handleAddFilter does not fire because the selected filter's key is the
empty string. -/
theorem claim_C10_counterexample :
    (cStateEmptyKey.selectedFilter.isSome = true
      ∧ truthyStr cStateEmptyKey.selectedFilterValue = true)
    ∧ (handleAddFilter true cStateEmptyKey).1 = none := by decide

/-- Claim C10 (amended): handleAddFilter fires exactly when the callback is
provided, a filter with a non-empty value is selected (canAddFilter), and
the selected filter's key is non-empty; when it fires it emits the selected
key with the selected value (or empty string) and resets the state, and
when the guard fails the state is unchanged. -/
theorem claim_C10_add_filter_guard (hasCb : Bool) (s : FilterCreatorState) :
    ((handleAddFilter hasCb s).1.isSome = true ↔
      hasCb = true ∧ canAddFilter s = true
        ∧ truthyStr (s.selectedFilter.map Filter.key) = true)
    ∧ ((handleAddFilter hasCb s).1.isSome = true →
        (handleAddFilter hasCb s).1
            = some { key := (s.selectedFilter.map Filter.key).getD ""
                     value := jsOrEmpty s.selectedFilterValue }
          ∧ (handleAddFilter hasCb s).2
            = { popoverActive := false
                selectedFilter := none
                selectedFilterValue := none })
    ∧ ((handleAddFilter hasCb s).1.isSome = false →
        (handleAddFilter hasCb s).2 = s) := by
  unfold handleAddFilter
  by_cases h1 : hasCb = true <;> by_cases h2 : canAddFilter s = true <;>
    by_cases h3 : truthyStr (s.selectedFilter.map Filter.key) = true <;>
      simp [h1, h2, h3]

/-- Witness for claim C10: with a selected filter keyed "k" and value "v",
the handler emits (key "k", value "v") and resets the state. -/
theorem claim_C10_witness :
    (handleAddFilter true cState).1 = some ⟨"k", "v"⟩
    ∧ (handleAddFilter true cState).2
      = { popoverActive := false
          selectedFilter := none
          selectedFilterValue := none } := by
  have h := (claim_C10_add_filter_guard true cState).2.1 (by decide)
  exact ⟨h.1.trans (by decide), h.2⟩

end Polaris
